import Mathlib

/-!
Verification of the AASIST_Server inference pipeline against its source.

The development shallowly embeds the two source files:
  * `predictor.py` — the `pad` framing function and `AASISTPredictor.predict`;
  * `app.py` — the startup file check and the `predict_audio_batch` handler.

Waveform samples are modelled as lists (polymorphic where the code is);
floating-point scores are modelled as rationals; fallible Python code
(raising exceptions) is modelled with `Except`; the effectful steps of the
request handler (reading the upload, pydub transcoding, `os.remove`) are
modelled by an explicit per-file environment recording each step's outcome,
and the filesystem by the list of temp-file paths currently on disk.
-/

/-- Error raised by the framing function: Python's `ZeroDivisionError`,
raised by `max_len / x_len` when `x_len = 0`. -/
inductive PadError where
  | divisionByZero
deriving DecidableEq, Repr

/-- Python's `int(a / b)` on nonnegative integers: true floor division,
except that `b = 0` raises `ZeroDivisionError`.  (For the magnitudes the
program uses — `max_len = 64600` — float rounding never perturbs the
floor, so exact `Nat` division is the faithful value.) -/
def pyFloorDiv (a b : Nat) : Except PadError Nat :=
  if b = 0 then .error .divisionByZero else .ok (a / b)

/-- `pad` from `predictor.py` lines 10–17:

    def pad(x, max_len=64600):
        x_len = x.shape[0]
        if x_len >= max_len:
            return x[:max_len]
        num_repeats = int(max_len / x_len) + 1
        padded_x = np.tile(x, (1, num_repeats))[:, :max_len][0]
        return padded_x

`np.tile(x, (1, n))[:, :max_len][0]` concatenates `n` copies of `x` and
keeps the first `max_len` entries. -/
def pad (x : List α) (max_len : Nat) : Except PadError (List α) :=
  let x_len := x.length
  if x_len ≥ max_len then
    .ok (x.take max_len)
  else
    match pyFloorDiv max_len x_len with
    | .error e => .error e
    | .ok q =>
      let num_repeats := q + 1
      .ok ((List.replicate num_repeats x).flatten.take max_len)

/-- The flattened replication has length `n * len x`. -/
lemma length_flatten_replicate (n : Nat) (x : List α) :
    (List.replicate n x).flatten.length = n * x.length := by
  simp [List.length_flatten, List.map_replicate, List.sum_replicate, smul_eq_mul]

/-- The tiling count `max_len / len + 1` always suffices: `max_len`
samples are available before truncation. -/
lemma le_div_succ_mul (max_len len : Nat) (h : 0 < len) :
    max_len ≤ (max_len / len + 1) * len := by
  calc max_len = len * (max_len / len) + max_len % len := (Nat.div_add_mod _ _).symm
    _ ≤ len * (max_len / len) + len := by
        exact Nat.add_le_add_left (Nat.le_of_lt (Nat.mod_lt _ h)) _
    _ = (max_len / len + 1) * len := by ring

/-- Claim C1: for every non-empty waveform `x` with `x.length < max_len`,
`pad` tiles `x` with repeat count `max_len / x.length + 1` and truncates:
the result is `Except.ok` of the truncated tiling, has length exactly
`max_len`, and its first `x.length` samples equal `x`. -/
theorem pad_short_input_tiles (x : List α) (max_len : Nat)
    (hne : x ≠ []) (hlt : x.length < max_len) :
    ∃ y : List α,
      pad x max_len = .ok y ∧
      y = (List.replicate (max_len / x.length + 1) x).flatten.take max_len ∧
      y.length = max_len ∧
      y.take x.length = x := by
  have hpos : 0 < x.length := List.length_pos.mpr hne
  have hlen0 : x.length ≠ 0 := Nat.pos_iff_ne_zero.mp hpos
  refine ⟨(List.replicate (max_len / x.length + 1) x).flatten.take max_len, ?_, rfl, ?_, ?_⟩
  · unfold pad pyFloorDiv
    simp [Nat.not_le.mpr hlt, hlen0]
  · rw [List.length_take, length_flatten_replicate]
    exact Nat.min_eq_left (le_div_succ_mul _ _ hpos)
  · rw [List.take_take, Nat.min_eq_left (Nat.le_of_lt hlt)]
    have hrep : (List.replicate (max_len / x.length + 1) x).flatten
        = x ++ (List.replicate (max_len / x.length) x).flatten := by
      rw [List.replicate_succ, List.flatten_cons]
    rw [hrep, List.take_append_of_le_length (Nat.le_refl _), List.take_length]

/-- Witness for C1 at `x = [1, 2, 3]`, `max_len = 7`. -/
theorem pad_short_input_tiles_witness :
    ([1, 2, 3] : List Int) ≠ [] ∧ ([1, 2, 3] : List Int).length < 7 ∧
    ∃ y : List Int,
      pad [1, 2, 3] 7 = .ok y ∧
      y = (List.replicate (7 / ([1, 2, 3] : List Int).length + 1) [1, 2, 3]).flatten.take 7 ∧
      y.length = 7 ∧
      y.take ([1, 2, 3] : List Int).length = [1, 2, 3] :=
  ⟨by decide, by decide, pad_short_input_tiles [1, 2, 3] 7 (by decide) (by decide)⟩

/-- Claim C6: for every waveform `x` with `x.length ≥ max_len`, `pad`
returns exactly the first `max_len` samples of `x`, unmodified. -/
theorem pad_long_input_truncates (x : List α) (max_len : Nat)
    (h : max_len ≤ x.length) :
    ∃ y : List α,
      pad x max_len = .ok y ∧
      y = x.take max_len ∧
      y.length = max_len ∧
      ∀ i : Nat, i < max_len → y[i]? = x[i]? := by
  refine ⟨x.take max_len, ?_, rfl, ?_, ?_⟩
  · unfold pad
    simp [h]
  · rw [List.length_take]
    exact Nat.min_eq_left h
  · intro i hi
    rw [List.getElem?_take]
    simp [hi]

/-- Witness for C6 at `x = [5, 6, 7]`, `max_len = 2`. -/
theorem pad_long_input_truncates_witness :
    2 ≤ ([5, 6, 7] : List Int).length ∧
    ∃ y : List Int,
      pad [5, 6, 7] 2 = .ok y ∧
      y = ([5, 6, 7] : List Int).take 2 ∧
      y.length = 2 ∧
      ∀ i : Nat, i < 2 → y[i]? = ([5, 6, 7] : List Int)[i]? :=
  ⟨by decide, pad_long_input_truncates [5, 6, 7] 2 (by decide)⟩

/-- A Python value appearing in the result dictionaries: a string or a
number (floats modelled as rationals). -/
inductive PyVal where
  | str (s : String)
  | num (q : ℚ)
deriving DecidableEq, Repr

/-- The decision policy of `AASISTPredictor.predict`, lines 94–98:
`if score > self.threshold: "真实" else: "伪造"`. -/
def decideLabel (score threshold : ℚ) : String :=
  if score > threshold then "真实" else "伪造"

/-- `AASISTPredictor.predict` (predictor.py lines 62–108) as a dictionary
(association list) builder.  The effectful steps are supplied as
arguments: `load` is the outcome of `librosa.load` (waveform, or a raised
exception's message) and `forward` is the outcome of the model forward
pass (bonafide score, or a raised exception's message).  The body's
`try/except Exception` is the propagation of any step's `.error` to the
single-key error dictionary; a `ZeroDivisionError` escaping `pad` carries
the message "division by zero". -/
def predictDict (threshold : ℚ) (load : Except String (List ℚ))
    (forward : List ℚ → Except String ℚ) : List (String × PyVal) :=
  match load with
  | .error e => [("error", .str e)]
  | .ok X =>
    match pad X 64600 with
    | .error _ => [("error", .str "division by zero")]
    | .ok X_pad =>
      match forward X_pad with
      | .error e => [("error", .str e)]
      | .ok score =>
        [("label", .str (decideLabel score threshold)),
         ("score", .num score),
         ("threshold", .num threshold)]

/-- Counterexample to claim C2 as stated: on the empty waveform `pad`
does perform the division `max_len / x_len` with `x_len = 0`, raising
`ZeroDivisionError` — there is no explicit guard ahead of the division. -/
theorem pad_empty_divides_by_zero :
    pad ([] : List ℚ) 64600 = .error PadError.divisionByZero := by rfl

/-- Claim C2 (amended): for the zero-length waveform and positive target
length, `pad` fails with the division-by-zero error (it never returns a
shorter or empty sequence), and inside `predict` that error is caught by
the generic `except Exception` handler, which reports it as an error
dictionary. -/
theorem pad_empty_error_caught_in_predict (max_len : Nat) (h : 0 < max_len)
    (threshold : ℚ) (forward : List ℚ → Except String ℚ) :
    pad ([] : List ℚ) max_len = .error .divisionByZero ∧
    (∀ y : List ℚ, pad ([] : List ℚ) max_len ≠ .ok y) ∧
    predictDict threshold (.ok []) forward = [("error", .str "division by zero")] := by
  have hne : max_len ≠ 0 := Nat.pos_iff_ne_zero.mp h
  have hp : pad ([] : List ℚ) max_len = .error .divisionByZero := by
    unfold pad pyFloorDiv
    simp [hne]
  refine ⟨hp, ?_, ?_⟩
  · intro y hy
    rw [hp] at hy
    exact Except.noConfusion hy
  · rfl

/-- Witness for C2's amended theorem at `max_len = 64600`. -/
theorem pad_empty_error_caught_in_predict_witness :
    0 < 64600 ∧
    (pad ([] : List ℚ) 64600 = .error .divisionByZero ∧
     (∀ y : List ℚ, pad ([] : List ℚ) 64600 ≠ .ok y) ∧
     predictDict 0 (.ok []) (fun _ => .ok 0) = [("error", .str "division by zero")]) :=
  ⟨by decide, pad_empty_error_caught_in_predict 64600 (by decide) 0 (fun _ => .ok 0)⟩

/-- Claim C3: the decision is BONAFIDE ("真实") exactly when
`score > threshold` (strict), and a score equal to the threshold yields
SPOOF ("伪造"). -/
theorem decide_strict_threshold (score threshold : ℚ) :
    (decideLabel score threshold = "真实" ↔ score > threshold) ∧
    decideLabel threshold threshold = "伪造" := by
  refine ⟨⟨?_, ?_⟩, ?_⟩
  · intro he
    by_contra hnot
    unfold decideLabel at he
    rw [if_neg hnot] at he
    exact absurd he (by decide)
  · intro hgt
    unfold decideLabel
    rw [if_pos hgt]
  · unfold decideLabel
    rw [if_neg (lt_irrefl threshold)]

/-- Witness for C3 at `score = 2`, `threshold = 1`. -/
theorem decide_strict_threshold_witness :
    (decideLabel 2 1 = "真实" ↔ (2 : ℚ) > 1) ∧ decideLabel 1 1 = "伪造" :=
  decide_strict_threshold 2 1

/-- Claim C9: `predict` never raises: for every outcome of its effectful
steps it returns a dictionary whose keys are exactly
`label`, `score`, `threshold` (success) or exactly `error` (failure). -/
theorem predict_returns_success_or_error_dict (threshold : ℚ)
    (load : Except String (List ℚ)) (forward : List ℚ → Except String ℚ) :
    (predictDict threshold load forward).map Prod.fst = ["label", "score", "threshold"] ∨
    (predictDict threshold load forward).map Prod.fst = ["error"] := by
  unfold predictDict
  cases load with
  | error e => exact Or.inr rfl
  | ok X =>
    split
    · exact Or.inr rfl
    · split
      · exact Or.inr rfl
      · split
        · exact Or.inr rfl
        · exact Or.inl rfl

/-- The extension component of `os.path.splitext` for a bare filename
(upload filenames, no directory separators): the suffix starting at the
last dot, unless every character before that dot is itself a dot (then
there is no extension, as for Python's ".bashrc"). -/
def splitext_ext (s : String) : String :=
  let l := s.data
  match ((List.range l.length).filter fun i => l.getD i ' ' == '.').getLast? with
  | none => ""
  | some i => if (l.take i).all (fun c => c == '.') then "" else String.mk (l.drop i)

/-- Python `str.lower()`, character by character (the extensions involved
are ASCII). -/
def pyLower (s : String) : String := String.mk (s.data.map Char.toLower)

/-- app.py lines 58–60: `file_ext = os.path.splitext(file.filename)[1].lower()`,
with the empty extension replaced by ".temp". -/
def usedExt (filename : String) : String :=
  let file_ext := pyLower (splitext_ext filename)
  if file_ext = "" then ".temp" else file_ext

/-- app.py line 15. -/
def MODEL_PATH : String := "epoch_45_0.441.pth"

/-- app.py line 16. -/
def CONFIG_PATH : String := "config_standalone_eval.json"

/-- app.py line 17: the hardcoded decision threshold 1.510585. -/
def THRESHOLD : ℚ := 1510585 / 1000000

/-- Whether module startup reaches the serving stage. -/
inductive StartupOutcome where
  | exited
  | serving (threshold : ℚ)
deriving DecidableEq, Repr

/-- app.py lines 34–45: if either required file is missing, the module
prints an error and calls `exit()` before the FastAPI app or the
predictor is constructed; otherwise the service is set up with the
hardcoded threshold. -/
def startupCheck (pathExists : String → Bool) : StartupOutcome :=
  if !pathExists MODEL_PATH || !pathExists CONFIG_PATH then .exited
  else .serving THRESHOLD

/-- Per-upload environment for one iteration of the batch loop: the
upload's filename and the outcome of each effectful step.  `readOk`
is whether reading/writing the upload's bytes inside the `with` block
succeeds; `convertOk` whether the pydub load-and-export succeeds, with
`convertWrote` recording whether the converted file reached the disk
when export failed; `predictResult` is the dictionary returned by
`predictor.predict`; the two remove flags say whether `os.remove`
raises on each path during cleanup. -/
structure FileEnv where
  filename : String
  tempName : String
  readOk : Bool
  readErrMsg : String
  convertOk : Bool
  convertWrote : Bool
  convertErrMsg : String
  predictResult : List (String × PyVal)
  removeInputRaises : Bool
  removeWavRaises : Bool
deriving DecidableEq, Repr

/-- app.py line 74: the converted file's path. -/
def wavName (e : FileEnv) : String := e.tempName ++ ".converted.wav"

/-- Python `dict.get(key)`: the value at the key, or `none`. -/
def dictGet (d : List (String × PyVal)) (k : String) : Option PyVal :=
  (d.find? fun p => p.1 == k).map Prod.snd

/-- One element of the response array (app.py lines 87–93 / 97–103). -/
structure BatchEntry where
  filename : String
  result_label : PyVal
  score : PyVal
  is_bonafide : Bool
  error : Option PyVal
deriving DecidableEq, Repr

/-- app.py lines 87–93: the entry built from the dictionary returned by
`predictor.predict`. -/
def mkEntry (fn : String) (d : List (String × PyVal)) : BatchEntry :=
  { filename := fn
    result_label := (dictGet d "label").getD (.str "错误")
    score := (dictGet d "score").getD (.num 0)
    is_bonafide := dictGet d "label" == some (.str "真实")
    error := dictGet d "error" }

/-- app.py lines 96–103: the entry built in the `except` block when the
iteration raised an exception with message `msg`. -/
def errorEntry (fn msg : String) : BatchEntry :=
  { filename := fn
    result_label := .str "错误"
    score := .num 0
    is_bonafide := false
    error := some (.str ("处理失败: " ++ msg ++ " (请检查 ffmpeg.exe 是否在目录下)")) }

/-- Second half of the `finally` block (app.py lines 110–111): remove
the converted file if its path was recorded and it exists; a raising
`os.remove` leaves it in place (`except: pass` swallows the error). -/
def cleanupWav (fs : List String) (wav : Option String) (wavRaises : Bool) : List String :=
  match wav with
  | none => fs
  | some p => if p ∈ fs then (if wavRaises then fs else fs.erase p) else fs

/-- app.py lines 105–113, the `finally` block: remove each recorded temp
path that exists.  A raising `os.remove` on the input file aborts the
rest of the block (the exception jumps to `except: pass`), so the
converted file is then not even attempted. -/
def cleanup (fs : List String) (inp wav : Option String)
    (inpRaises wavRaises : Bool) : List String :=
  match inp with
  | none => cleanupWav fs wav wavRaises
  | some p =>
    if p ∈ fs then
      if inpRaises then fs
      else cleanupWav (fs.erase p) wav wavRaises
    else cleanupWav fs wav wavRaises

/-- Result of one iteration of the batch loop: the appended response
entry, the filesystem after the `finally` block, the temp paths created
during the iteration, and whether the transcoding branch was entered. -/
structure ProcOut where
  entry : BatchEntry
  fs : List String
  created : List String
  converted : Bool
deriving DecidableEq, Repr

/-- One iteration of the loop of `predict_audio_batch` (app.py lines
52–113) for upload `e`, acting on filesystem `fs` (the list of paths on
disk).  `NamedTemporaryFile(delete=False, suffix=file_ext)` creates the
temp file on disk when the `with` block is entered; only after the
upload's bytes are read and written is `temp_input_path` assigned, so a
raising read (`e.readOk = false`) reaches the `finally` block with
`temp_input_path = None`. -/
def processFile (fs : List String) (e : FileEnv) : ProcOut :=
  let file_ext := usedExt e.filename
  let fs1 := e.tempName :: fs
  if e.readOk then
    if file_ext ≠ ".wav" then
      if e.convertOk then
        { entry := mkEntry e.filename e.predictResult
          fs := cleanup (wavName e :: fs1) (some e.tempName) (some (wavName e))
                  e.removeInputRaises e.removeWavRaises
          created := [e.tempName, wavName e]
          converted := true }
      else
        { entry := errorEntry e.filename e.convertErrMsg
          fs := cleanup (if e.convertWrote then wavName e :: fs1 else fs1)
                  (some e.tempName) (some (wavName e))
                  e.removeInputRaises e.removeWavRaises
          created := if e.convertWrote then [e.tempName, wavName e] else [e.tempName]
          converted := true }
    else
      { entry := mkEntry e.filename e.predictResult
        fs := cleanup fs1 (some e.tempName) none
                e.removeInputRaises e.removeWavRaises
        created := [e.tempName]
        converted := false }
  else
    { entry := errorEntry e.filename e.readErrMsg
      fs := cleanup fs1 none none e.removeInputRaises e.removeWavRaises
      created := [e.tempName]
      converted := false }

/-- The loop of `predict_audio_batch` (app.py lines 48–115): the files
are processed strictly in order, each iteration appending exactly one
entry and threading the filesystem. -/
def predict_audio_batch (fs : List String) (files : List FileEnv) :
    List BatchEntry × List String :=
  match files with
  | [] => ([], fs)
  | e :: rest =>
    let o := processFile fs e
    let r := predict_audio_batch o.fs rest
    (o.entry :: r.1, r.2)

/-- The entry appended for upload `e`; a function of that upload alone. -/
def entryOf (e : FileEnv) : BatchEntry :=
  if e.readOk then
    if usedExt e.filename ≠ ".wav" then
      if e.convertOk then mkEntry e.filename e.predictResult
      else errorEntry e.filename e.convertErrMsg
    else mkEntry e.filename e.predictResult
  else errorEntry e.filename e.readErrMsg

/-- The entry an iteration appends does not depend on filesystem state. -/
lemma processFile_entry (fs : List String) (e : FileEnv) :
    (processFile fs e).entry = entryOf e := by
  by_cases hr : e.readOk <;> by_cases hw : usedExt e.filename = ".wav" <;>
    by_cases hc : e.convertOk <;> simp [processFile, entryOf, hr, hw, hc]

/-- The batch response is the per-upload entry map. -/
lemma batch_fst (fs : List String) (files : List FileEnv) :
    (predict_audio_batch fs files).1 = files.map entryOf := by
  induction files generalizing fs with
  | nil => rfl
  | cons e rest ih => simp [predict_audio_batch, processFile_entry, ih]

/-- Claim C4: the batch handler returns exactly one entry per uploaded
file, in input order; each entry is a function of its own upload alone,
so a failure while processing one file never aborts or alters the
processing of the remaining files, and a file whose iteration raised
gets its own entry with a non-null error field. -/
theorem batch_one_entry_per_file_in_order (fs : List String) (files : List FileEnv) :
    (predict_audio_batch fs files).1.length = files.length ∧
    (predict_audio_batch fs files).1 = files.map entryOf ∧
    (∀ e : FileEnv, e.readOk = false → (entryOf e).error ≠ none) ∧
    (∀ e : FileEnv, e.readOk = true → usedExt e.filename ≠ ".wav" →
      e.convertOk = false → (entryOf e).error ≠ none) := by
  refine ⟨?_, batch_fst fs files, ?_, ?_⟩
  · rw [batch_fst]
    exact List.length_map files entryOf
  · intro e he
    simp [entryOf, he, errorEntry]
  · intro e h1 h2 h3
    simp [entryOf, h1, h2, h3, errorEntry]

/-- A successfully processed canonical-format upload. -/
def envOkA : FileEnv :=
  { filename := "a.wav", tempName := "/tmp/upload_a.wav", readOk := true,
    readErrMsg := "", convertOk := true, convertWrote := true, convertErrMsg := "",
    predictResult := [("label", .str "真实"), ("score", .num 1), ("threshold", .num 0)],
    removeInputRaises := false, removeWavRaises := false }

/-- An upload whose read step raises. -/
def envFailB : FileEnv :=
  { filename := "b.wav", tempName := "/tmp/upload_b.wav", readOk := false,
    readErrMsg := "connection reset", convertOk := false, convertWrote := false,
    convertErrMsg := "", predictResult := [],
    removeInputRaises := false, removeWavRaises := false }

/-- Witness for C4 on a two-file batch whose second file fails. -/
theorem batch_one_entry_per_file_in_order_witness :
    (predict_audio_batch [] [envOkA, envFailB]).1.length = 2 ∧
    (predict_audio_batch [] [envOkA, envFailB]).1 = [envOkA, envFailB].map entryOf ∧
    envFailB.readOk = false ∧ (entryOf envFailB).error ≠ none := by
  obtain ⟨h1, h2, h3, -⟩ := batch_one_entry_per_file_in_order [] [envOkA, envFailB]
  exact ⟨h1, h2, rfl, h3 envFailB rfl⟩

/-- An upload whose read raises mid-transfer: the `with` block has
already created the temp file on disk when the exception occurs. -/
def leakEnv : FileEnv :=
  { filename := "a.wav", tempName := "/tmp/upload1.wav", readOk := false,
    readErrMsg := "client disconnected", convertOk := false, convertWrote := false,
    convertErrMsg := "", predictResult := [],
    removeInputRaises := false, removeWavRaises := false }

/-- Claim C5 fails on the code: when reading the upload raises inside
the `with` block, the already-created temp file survives processing —
`temp_input_path` is still `None` in the `finally` block (it is assigned
only after the read and write complete), so the deletion is skipped even
though `os.remove` itself works on every path. -/
theorem temp_file_leaks_on_read_failure :
    (processFile [] leakEnv).created = ["/tmp/upload1.wav"] ∧
    (processFile [] leakEnv).fs = ["/tmp/upload1.wav"] := by
  constructor <;> rfl

/-- Claim C7: if either the weights file or the config file is absent at
startup, the process exits before any serving state is reached. -/
theorem startup_exits_when_file_missing (pathExists : String → Bool)
    (h : pathExists MODEL_PATH = false ∨ pathExists CONFIG_PATH = false) :
    startupCheck pathExists = .exited := by
  unfold startupCheck
  rcases h with h | h <;> simp [h]

/-- Witness for C7 with no file present. -/
theorem startup_exits_when_file_missing_witness :
    ((fun _ => false : String → Bool) MODEL_PATH = false ∨
     (fun _ => false : String → Bool) CONFIG_PATH = false) ∧
    startupCheck (fun _ => false) = .exited :=
  ⟨Or.inl rfl, startup_exits_when_file_missing (fun _ => false) (Or.inl rfl)⟩

/-- Claim C8: a raising `os.remove` during cleanup never changes, masks,
or replaces any entry of the batch response, and is never propagated to
the caller: with any combination of cleanup failures the handler still
returns normally with identical entries. -/
theorem cleanup_failure_never_masks_result (fs : List String) (files : List FileEnv)
    (b1 b2 : Bool) :
    (predict_audio_batch fs (files.map fun e =>
        { e with removeInputRaises := b1, removeWavRaises := b2 })).1 =
      (predict_audio_batch fs files).1 := by
  rw [batch_fst, batch_fst, List.map_map]
  congr 1

/-- Claim C10: an upload whose filename has no extension gets temp-file
suffix ".temp"; since ".temp" differs from ".wav" its iteration always
enters the pydub transcoding branch, and when transcoding succeeds the
`.converted.wav` temp file is created before prediction. -/
theorem no_extension_routed_through_transcoding (fs : List String) (e : FileEnv)
    (hext : splitext_ext e.filename = "") (hread : e.readOk = true) :
    usedExt e.filename = ".temp" ∧
    (processFile fs e).converted = true ∧
    (e.convertOk = true → wavName e ∈ (processFile fs e).created) := by
  have hu : usedExt e.filename = ".temp" := by
    simp [usedExt, hext, pyLower]
  have hne : usedExt e.filename ≠ ".wav" := by
    rw [hu]
    decide
  refine ⟨hu, ?_, ?_⟩
  · by_cases hc : e.convertOk <;> simp [processFile, hread, hne, hc]
  · intro hc
    by_cases hw : e.convertWrote <;> simp [processFile, hread, hne, hc, hw]

/-- An extensionless upload that is transcoded successfully. -/
def noExtEnv : FileEnv :=
  { filename := "voicememo", tempName := "/tmp/upload2", readOk := true,
    readErrMsg := "", convertOk := true, convertWrote := true, convertErrMsg := "",
    predictResult := [("label", .str "伪造"), ("score", .num 0), ("threshold", .num 1)],
    removeInputRaises := false, removeWavRaises := false }

/-- Witness for C10 on the extensionless filename "voicememo". -/
theorem no_extension_routed_through_transcoding_witness :
    splitext_ext noExtEnv.filename = "" ∧ noExtEnv.readOk = true ∧
    (usedExt noExtEnv.filename = ".temp" ∧
     (processFile [] noExtEnv).converted = true ∧
     (noExtEnv.convertOk = true → wavName noExtEnv ∈ (processFile [] noExtEnv).created)) :=
  ⟨by decide, rfl, no_extension_routed_through_transcoding [] noExtEnv (by decide) rfl⟩
